import Mathlib

/-!
Verification development for the voice-assistant repository
(query router in rag/hybrid_pipeline.py, conversation session loop in
assistant.py, wake-word detector in voice/wake_word.py).

External capabilities (speech capture, speech synthesis, the vector
retriever backend, the Ollama generator) are modelled as parameters:
the retriever outcome as an optional Except value, the generator as a
function argument. Machine behaviour is embedded directly from the
Python source.
-/

namespace CllgChatbot

/-! ## Python string primitives

Embeddings of the Python string operations the pipeline uses:
str.strip() with no argument (trim whitespace at both ends),
str.lower() (ASCII lowering suffices for the configured phrases),
the containment test `w in q`, and str.split() with no argument
(split on whitespace runs, dropping empty pieces). -/

/-- Python whitespace characters for str.strip and str.split. -/
def isPyWS (c : Char) : Bool :=
  c = ' ' || c = '\t' || c = '\n' || c = '\r' || c = '\x0b' || c = '\x0c'

/-- Python str.strip() with no arguments. -/
def pyStrip (s : String) : String :=
  String.mk (((s.toList.dropWhile isPyWS).reverse.dropWhile isPyWS).reverse)

/-- Python str.lower() (ASCII range, which covers every configured phrase). -/
def pyLower (s : String) : String :=
  String.mk (s.toList.map Char.toLower)

/-- Substring containment on character lists: Python `needle in hay`. -/
def containsSub : List Char → List Char → Bool
  | n, [] => n.isEmpty
  | n, c :: t => n.isPrefixOf (c :: t) || containsSub n t

/-- Python `needle in hay` on strings. -/
def pyIn (needle hay : String) : Bool :=
  containsSub needle.toList hay.toList

/-- Helper for Python str.split(): accumulate the current word. -/
def splitWSAux : List Char → List Char → List (List Char)
  | [], acc => if acc.isEmpty then [] else [acc.reverse]
  | c :: t, acc =>
      if isPyWS c then
        if acc.isEmpty then splitWSAux t [] else acc.reverse :: splitWSAux t []
      else splitWSAux t (c :: acc)

/-- Python len(text.split()): number of whitespace-separated tokens. -/
def pyWordCount (s : String) : Nat :=
  (splitWSAux s.toList []).length

/-! ## Query router (rag/hybrid_pipeline.py) -/

/-- A retrieved context chunk: the code reads c["text"] and c["source"]. -/
structure Ctx where
  text : String
  source : String
deriving DecidableEq, Repr

/-- Keyword set for the time command, from _handle_system_commands. -/
def timeWords : List String := ["what time", "current time", "tell me the time"]

/-- Keyword set for the date command, from _handle_system_commands. -/
def dateWords : List String := ["what date", "today\x27s date", "what day"]

/-- Farewell phrase set, from _handle_system_commands. -/
def farewellWords : List String := ["stop listening", "go to sleep", "goodbye", "bye"]

/-- Result of _handle_system_commands, abstracted from the strings the
three branches return (the time and date strings embed datetime.now(),
supplied here as parameters at the string level below). -/
inductive SysCmd
  | time
  | date
  | exitCmd
deriving DecidableEq, Repr

/-- _handle_system_commands: lower the question, then test the three
keyword sets in order (time, then date, then farewell); first matching
set wins, none returns None. -/
def handleSystemCommands (question : String) : Option SysCmd :=
  let q := pyLower question
  if timeWords.any (fun w => pyIn w q) then some SysCmd.time
  else if dateWords.any (fun w => pyIn w q) then some SysCmd.date
  else if farewellWords.any (fun w => pyIn w q) then some SysCmd.exitCmd
  else none

/-- Outcome of the retrieval capability as the router sees it:
none models a pipeline whose Retriever() constructor raised
(_rag_available = False); some (Except.error ()) models retrieve()
raising; some (Except.ok ctxs) a successful retrieval. -/
abbrev RetrOutcome := Option (Except Unit (List Ctx))

/-- _is_relevant: at least one context whose text has more than 20
whitespace-separated words; an empty context list is not relevant. -/
def isRelevant (contexts : List Ctx) : Bool :=
  if contexts.isEmpty then false
  else contexts.any (fun ctx => 20 < pyWordCount ctx.text)

/-- The route decisions of the spec plus the terminal clarification
answer the code returns for empty input before routing. -/
inductive RouteOut
  | clarification
  | sysTime
  | sysDate
  | exitRoute
  | grounded (contexts : List Ctx)
  | general
deriving DecidableEq, Repr

/-- The decision structure of HybridPipeline.answer: strip the input and
short-circuit if empty; consult _handle_system_commands; otherwise,
when RAG is available, retrieve and route on `contexts and
_is_relevant(contexts)`, with any retrieval exception and the
unavailable-retriever case both falling to the general branch. -/
def route (question : String) (retr : RetrOutcome) : RouteOut :=
  let q := pyStrip question
  if q = "" then RouteOut.clarification
  else
    match handleSystemCommands q with
    | some SysCmd.time => RouteOut.sysTime
    | some SysCmd.date => RouteOut.sysDate
    | some SysCmd.exitCmd => RouteOut.exitRoute
    | none =>
        match retr with
        | none => RouteOut.general
        | some (Except.error _) => RouteOut.general
        | some (Except.ok contexts) =>
            if !contexts.isEmpty && isRelevant contexts then
              RouteOut.grounded contexts
            else RouteOut.general

/-- The context view the decision depends on: unavailable retriever and
a raising retrieve() both give none; a successful call gives its list. -/
def availableContexts (retr : RetrOutcome) : Option (List Ctx) :=
  match retr with
  | none => none
  | some (Except.error _) => none
  | some (Except.ok contexts) => some contexts

/-- The in-band exit token returned by the farewell branch. -/
def exitToken : String := "__EXIT__"

/-- "\n\n".join of "[Source: {source}]\n{text}" over the contexts. -/
def contextText (contexts : List Ctx) : String :=
  String.intercalate "\n\n"
    (contexts.map (fun c => "[Source: " ++ c.source ++ "]\n" ++ c.text))

/-- String level of _handle_system_commands: the time and date branches
format datetime.now() (passed as timeStr and dateStr); the farewell
branch returns the literal "__EXIT__". -/
def handleSystemCommandsStr (question timeStr dateStr : String) : Option String :=
  match handleSystemCommands question with
  | some SysCmd.time => some ("The current time is " ++ timeStr ++ ".")
  | some SysCmd.date => some ("Today is " ++ dateStr ++ ".")
  | some SysCmd.exitCmd => some exitToken
  | none => none

/-- String level of HybridPipeline.answer. genWithCtx models
call_ollama_with_context (applied to question and joined context text),
genGeneral models call_ollama_general. The code tests the command
response with Python truthiness (`if system_response:`); every command
response is a non-empty string, so `some r` returning r is faithful. -/
def pipeAnswer (question : String) (retr : RetrOutcome)
    (timeStr dateStr : String)
    (genWithCtx : String → String → String)
    (genGeneral : String → String) : String :=
  let q := pyStrip question
  if q = "" then "I didn\x27t catch that. Could you repeat?"
  else
    match handleSystemCommandsStr q timeStr dateStr with
    | some r => r
    | none =>
        match retr with
        | none => genGeneral q
        | some (Except.error _) => genGeneral q
        | some (Except.ok contexts) =>
            if !contexts.isEmpty && isRelevant contexts then
              genWithCtx q (contextText contexts)
            else genGeneral q

/-! ## Conversation session loop (assistant.py, _conversation_loop)

The loop is modelled over a list of listen outcomes (None for silence,
some text for a transcript) and an answer oracle String → String
standing for self.pipeline.answer. The _running flag is held by the
tray/console shell and stays true for the scenarios of the spec; the
model keeps it true. Spoken output is recorded as events. -/

/-- One spoken utterance of the session loop. -/
inductive Spoken
  | reprompt
  | signOff
  | fallback
  | answerOut (text : String)
deriving DecidableEq, Repr

/-- How the session ended: the silence threshold, an "__EXIT__" answer,
or the supplied listen-outcome list ran out (the real loop would keep
listening). -/
inductive SessionEnd
  | silenceLimit
  | exitCommand
  | exhausted
deriving DecidableEq, Repr

/-- _conversation_loop: while consecutive_silence < 2, listen; on
silence increment the counter and, if still below 2, speak the
re-prompt; on a transcript reset the counter to 0, answer, return at
once on "__EXIT__" with the sign-off, else speak the answer. On loop
exit by the threshold, speak the fallback line. -/
def convLoop (ans : String → String) : Nat → List (Option String) →
    List Spoken × SessionEnd
  | cs, ins =>
      if 2 ≤ cs then ([Spoken.fallback], SessionEnd.silenceLimit)
      else
        match ins with
        | [] => ([], SessionEnd.exhausted)
        | none :: rest =>
            let cs2 := cs + 1
            let tail := convLoop ans cs2 rest
            if cs2 < 2 then (Spoken.reprompt :: tail.1, tail.2) else tail
        | some t :: rest =>
            let r := ans t
            if r = exitToken then ([Spoken.signOff], SessionEnd.exitCommand)
            else
              let tail := convLoop ans 0 rest
              (Spoken.answerOut r :: tail.1, tail.2)

/-- Outcome of one iteration of run_console for a line of input. -/
inductive ConsoleStep
  | skip
  | quitDirect
  | quitExit
  | replied (text : String)
deriving DecidableEq, Repr

/-- run_console body: strip the input, skip if empty, break on the
literal exit words, else answer and break exactly on "__EXIT__". -/
def consoleStep (ans : String → String) (raw : String) : ConsoleStep :=
  let input := pyStrip raw
  if input = "" then ConsoleStep.skip
  else if pyLower input = "exit" || pyLower input = "quit" ||
      pyLower input = "bye" then ConsoleStep.quitDirect
  else
    let r := ans input
    if r = exitToken then ConsoleStep.quitExit else ConsoleStep.replied r

/-! ## Wake-word detector (voice/wake_word.py)

The detector is a background loop thread plus a controller (the
assistant thread) issuing start/stop/pause/resume. The model is a
labelled transition system: the loop thread has a program counter
(at the top of the loop, or inside the wake callback), the controller
issues complete calls in sequence; stop() is split into its signal
(_running = False) and its return, which the join makes wait until the
loop thread has exited (the join is bounded by timeout=5 in the code;
the model covers the behaviour in which it completes). -/

/-- Program counter of the _listen_loop thread. -/
inductive TPC
  | atLoop
  | inCallback
deriving DecidableEq, Repr

/-- Detector state: _running, _paused, whether the controller is inside
stop() between its signal and its return, and the loop thread (none
when no thread is alive). -/
structure DetSt where
  running : Bool
  stopping : Bool
  paused : Bool
  thread : Option TPC
deriving DecidableEq, Repr

/-- Initial detector state: constructed, not started. -/
def detInit : DetSt :=
  { running := false, stopping := false, paused := false, thread := none }

/-- Actions: controller calls (start, the two halves of stop, pause,
resume) and loop-thread steps (a sampling cycle without a match — which
also covers the paused sleep and the caught capture exception —, a wake
match firing the callback, the callback returning, the loop exiting
after observing _running = False). -/
inductive DetAct
  | startCall
  | stopSignal
  | stopReturn
  | pauseCall
  | resumeCall
  | pollNoMatch
  | fireWake
  | callbackRet
  | threadExit
deriving DecidableEq, Repr

/-- One transition; none when the action is not enabled. Controller
calls are blocked while the controller sits inside stop(). start() on a
running detector only logs a warning; fireWake follows the guard
`detected and self._running and not self._paused` and then sets
_paused = True before invoking the callback; callbackRet is the finally
block restoring _paused = False. -/
def detStep (s : DetSt) (a : DetAct) : Option DetSt :=
  match a with
  | DetAct.startCall =>
      if s.stopping then none
      else if s.running then some s
      else some { s with running := true, thread := some TPC.atLoop }
  | DetAct.stopSignal =>
      if s.stopping then none
      else some { s with running := false, stopping := true }
  | DetAct.stopReturn =>
      if s.stopping && s.thread = none then some { s with stopping := false }
      else none
  | DetAct.pauseCall =>
      if s.stopping then none else some { s with paused := true }
  | DetAct.resumeCall =>
      if s.stopping then none else some { s with paused := false }
  | DetAct.pollNoMatch =>
      if s.thread = some TPC.atLoop && s.running then some s else none
  | DetAct.fireWake =>
      if s.thread = some TPC.atLoop && s.running && !s.paused then
        some { s with paused := true, thread := some TPC.inCallback }
      else none
  | DetAct.callbackRet =>
      if s.thread = some TPC.inCallback then
        some { s with paused := false, thread := some TPC.atLoop }
      else none
  | DetAct.threadExit =>
      if s.thread = some TPC.atLoop && !s.running then
        some { s with thread := none }
      else none

/-- Run a list of actions from a state; none if any action is not
enabled at its point. -/
def detRun (s : DetSt) : List DetAct → Option DetSt
  | [] => some s
  | a :: rest =>
      match detStep s a with
      | none => none
      | some s2 => detRun s2 rest

/-- The spec view of DetectorState: Idle when not running, else Paused
or Listening by the pause flag. -/
inductive SpecDetState
  | idle
  | listening
  | pausedSt
deriving DecidableEq, Repr

/-- Map a detector state to the DetectorState of the spec. -/
def detectorState (s : DetSt) : SpecDetState :=
  if !s.running then SpecDetState.idle
  else if s.paused then SpecDetState.pausedSt
  else SpecDetState.listening

/-- Number of callback invocations in an action list. -/
def fireCount (acts : List DetAct) : Nat :=
  acts.countP (fun a => a = DetAct.fireWake)

/-- Number of callback returns in an action list. -/
def retCount (acts : List DetAct) : Nat :=
  acts.countP (fun a => a = DetAct.callbackRet)

/-- 1 when the loop thread is inside the wake callback. -/
def cbDepth (s : DetSt) : Nat :=
  if s.thread = some TPC.inCallback then 1 else 0

/-! ## Helper lemmas -/

lemma convLoop_stop (ans : String → String) (cs : Nat) (ins : List (Option String))
    (h : 2 ≤ cs) :
    convLoop ans cs ins = ([Spoken.fallback], SessionEnd.silenceLimit) := by
  unfold convLoop
  rw [if_pos h]

lemma convLoop_silence (ans : String → String) (cs : Nat) (rest : List (Option String))
    (h : ¬ 2 ≤ cs) :
    convLoop ans cs (none :: rest) =
      if cs + 1 < 2 then
        (Spoken.reprompt :: (convLoop ans (cs + 1) rest).1, (convLoop ans (cs + 1) rest).2)
      else convLoop ans (cs + 1) rest := by
  conv_lhs => rw [convLoop]
  rw [if_neg h]

lemma convLoop_voice (ans : String → String) (cs : Nat) (t : String)
    (rest : List (Option String)) (h : ¬ 2 ≤ cs) :
    convLoop ans cs (some t :: rest) =
      if ans t = exitToken then ([Spoken.signOff], SessionEnd.exitCommand)
      else (Spoken.answerOut (ans t) :: (convLoop ans 0 rest).1, (convLoop ans 0 rest).2) := by
  conv_lhs => rw [convLoop]
  rw [if_neg h]

/-- The grounded-branch condition of answer() equals the any-over-20-words
test: for the empty list both sides are false, otherwise _is_relevant is
exactly the existence test. -/
lemma grounded_cond_eq (contexts : List Ctx) :
    (!contexts.isEmpty && isRelevant contexts)
      = contexts.any (fun c => 20 < pyWordCount c.text) := by
  cases contexts <;> simp [isRelevant]

/-- Decision view of route through availableContexts. -/
def routeA (question : String) (av : Option (List Ctx)) : RouteOut :=
  let q := pyStrip question
  if q = "" then RouteOut.clarification
  else
    match handleSystemCommands q with
    | some SysCmd.time => RouteOut.sysTime
    | some SysCmd.date => RouteOut.sysDate
    | some SysCmd.exitCmd => RouteOut.exitRoute
    | none =>
        match av with
        | none => RouteOut.general
        | some contexts =>
            if !contexts.isEmpty && isRelevant contexts then
              RouteOut.grounded contexts
            else RouteOut.general

/-- route factors through the available-contexts view of the retriever
outcome. -/
lemma route_eq_routeA (question : String) (retr : RetrOutcome) :
    route question retr = routeA question (availableContexts retr) := by
  cases retr with
  | none => rfl
  | some e => cases e <;> rfl

/-- TPC is finite (used to decide per-step detector lemmas). -/
instance : Fintype TPC :=
  ⟨⟨{TPC.atLoop, TPC.inCallback}, by decide⟩, by intro x; cases x <;> decide⟩

/-- DetSt is finite: it is four small fields. -/
instance : Fintype DetSt :=
  Fintype.ofEquiv (Bool × Bool × Bool × Option TPC)
    { toFun := fun x => ⟨x.1, x.2.1, x.2.2.1, x.2.2.2⟩
      invFun := fun s => ⟨s.running, s.stopping, s.paused, s.thread⟩
      left_inv := fun _ => rfl
      right_inv := fun _ => rfl }

/-- DetAct is finite. -/
instance : Fintype DetAct :=
  ⟨⟨{DetAct.startCall, DetAct.stopSignal, DetAct.stopReturn, DetAct.pauseCall,
     DetAct.resumeCall, DetAct.pollNoMatch, DetAct.fireWake, DetAct.callbackRet,
     DetAct.threadExit}, by decide⟩, by intro x; cases x <;> decide⟩

/-- Reachability invariant of the detector: while the controller is
inside stop() the running flag is down (stop sets it first), and a
detector that is neither running nor stopping has no live loop thread
(the previous stop() joined it, or none was started). -/
def detInv (s : DetSt) : Prop :=
  (s.stopping = true → s.running = false) ∧
  (s.running = false → s.stopping = false → s.thread = none)

instance (s : DetSt) : Decidable (detInv s) := by unfold detInv; infer_instance

/-- Number of callback invocations one action contributes. -/
def fireDelta (a : DetAct) : Nat := if a = DetAct.fireWake then 1 else 0

/-- Number of callback returns one action contributes. -/
def retDelta (a : DetAct) : Nat := if a = DetAct.callbackRet then 1 else 0

lemma detInv_init : detInv detInit := by decide

lemma detStep_inv : ∀ s a s2, detInv s → detStep s a = some s2 → detInv s2 := by decide

lemma detStep_depth : ∀ s a s2, detInv s → detStep s a = some s2 →
    cbDepth s2 + retDelta a = cbDepth s + fireDelta a := by decide

lemma detStep_dead : ∀ s a s2, s.thread = none → s.running = false →
    a ≠ DetAct.startCall → detStep s a = some s2 →
    s2.thread = none ∧ s2.running = false ∧ a ≠ DetAct.fireWake := by decide

lemma cbDepth_le_one : ∀ s, cbDepth s ≤ 1 := by decide

/-- The invariant holds along every run. -/
lemma detRun_inv (acts : List DetAct) : ∀ s0 s, detInv s0 →
    detRun s0 acts = some s → detInv s := by
  induction acts with
  | nil =>
      intro s0 s hinv h
      simp only [detRun] at h
      cases h
      exact hinv
  | cons a rest ih =>
      intro s0 s hinv h
      simp only [detRun] at h
      cases hs : detStep s0 a with
      | none => rw [hs] at h; cases h
      | some s1 =>
          rw [hs] at h
          exact ih s1 s (detStep_inv s0 a s1 hinv hs) h

/-- Callback-depth bookkeeping along a run: invocations minus returns
equals the change in the depth, so the depth never exceeds one. -/
lemma detRun_count (acts : List DetAct) : ∀ s0 s, detInv s0 →
    detRun s0 acts = some s →
    fireCount acts + cbDepth s0 = retCount acts + cbDepth s := by
  induction acts with
  | nil =>
      intro s0 s _ h
      simp only [detRun] at h
      cases h
      rfl
  | cons a rest ih =>
      intro s0 s hinv h
      simp only [detRun] at h
      cases hs : detStep s0 a with
      | none => rw [hs] at h; cases h
      | some s1 =>
          rw [hs] at h
          have hc := ih s1 s (detStep_inv s0 a s1 hinv hs) h
          have hd := detStep_depth s0 a s1 hinv hs
          cases a <;>
            simp only [fireCount, retCount, List.countP_cons, fireDelta, retDelta,
              fireCount, retCount] at hc hd ⊢ <;>
            simp_all <;> omega

/-- A successful run of an appended list splits at the seam. -/
lemma detRun_append (pre : List DetAct) : ∀ suf s0 s,
    detRun s0 (pre ++ suf) = some s →
    ∃ m, detRun s0 pre = some m ∧ detRun m suf = some s := by
  induction pre with
  | nil =>
      intro suf s0 s h
      exact ⟨s0, rfl, h⟩
  | cons a rest ih =>
      intro suf s0 s h
      simp only [List.cons_append, detRun] at h ⊢
      cases hs : detStep s0 a with
      | none => rw [hs] at h; cases h
      | some s1 =>
          rw [hs] at h
          exact ih suf s1 s h

/-- After the loop thread has exited with the running flag down, any
run avoiding start() keeps the detector dead and never fires. -/
lemma detRun_dead (acts : List DetAct) : ∀ s0 s,
    s0.thread = none → s0.running = false →
    detRun s0 acts = some s → DetAct.startCall ∉ acts →
    fireCount acts = 0 := by
  induction acts with
  | nil => intro s0 s _ _ _ _; rfl
  | cons a rest ih =>
      intro s0 s hth hrun h hmem
      simp only [detRun] at h
      cases hs : detStep s0 a with
      | none => rw [hs] at h; cases h
      | some s1 =>
          rw [hs] at h
          have hna : a ≠ DetAct.startCall := by
            intro heq
            exact hmem (heq ▸ List.mem_cons_self a rest)
          obtain ⟨h1, h2, h3⟩ := detStep_dead s0 a s1 hth hrun hna hs
          have hrest := ih s1 s h1 h2 h (fun hm => hmem (List.mem_cons_of_mem a hm))
          have hda : (decide (a = DetAct.fireWake)) = false := by simp [h3]
          simp only [fireCount, List.countP_cons, hda, if_false] at hrest ⊢
          simpa using hrest

lemma detStep_stopRet : ∀ s s2, detInv s → detStep s DetAct.stopReturn = some s2 →
    s2.running = false ∧ s2.thread = none ∧ s2.stopping = false := by decide

/-! ## Claim theorems -/

/-- C1: in the session loop every silent listen attempt increments the
consecutive-silence counter and every transcript resets it to 0 — the
transcript equation holds at every counter value below the threshold
and continues with counter 0 — after a silence with the counter still
below the threshold of 2 the session speaks the re-prompt and
continues, and it terminates with the returning-to-wake-word line
exactly when 2 consecutive silences have occurred: in particular a
silence, a transcript and another silence leave the session running
with counter 1, not terminated. -/
theorem c1_silence_counting (ans : String → String) (t : String)
    (rest : List (Option String)) :
    (convLoop ans 0 (none :: rest) =
      (Spoken.reprompt :: (convLoop ans 1 rest).1, (convLoop ans 1 rest).2)) ∧
    (convLoop ans 1 (none :: rest) = ([Spoken.fallback], SessionEnd.silenceLimit)) ∧
    (convLoop ans 0 (none :: none :: rest) =
      ([Spoken.reprompt, Spoken.fallback], SessionEnd.silenceLimit)) ∧
    (ans t ≠ exitToken → ∀ cs, cs < 2 →
      convLoop ans cs (some t :: rest) =
        (Spoken.answerOut (ans t) :: (convLoop ans 0 rest).1,
          (convLoop ans 0 rest).2)) ∧
    (ans t ≠ exitToken →
      convLoop ans 0 (none :: some t :: none :: rest) =
        (Spoken.reprompt :: Spoken.answerOut (ans t) :: Spoken.reprompt ::
            (convLoop ans 1 rest).1,
          (convLoop ans 1 rest).2)) := by
  have h12 : ∀ rs : List (Option String),
      convLoop ans 1 (none :: rs) = ([Spoken.fallback], SessionEnd.silenceLimit) := by
    intro rs
    rw [convLoop_silence ans 1 rs (by omega), if_neg (by omega)]
    exact convLoop_stop ans 2 rs (by omega)
  have hsil0 : ∀ rs : List (Option String),
      convLoop ans 0 (none :: rs) =
        (Spoken.reprompt :: (convLoop ans 1 rs).1, (convLoop ans 1 rs).2) := by
    intro rs
    rw [convLoop_silence ans 0 rs (by omega), if_pos (by omega)]
  have hvoice : ans t ≠ exitToken → ∀ cs, cs < 2 →
      ∀ rs : List (Option String),
      convLoop ans cs (some t :: rs) =
        (Spoken.answerOut (ans t) :: (convLoop ans 0 rs).1,
          (convLoop ans 0 rs).2) := by
    intro hne cs hcs rs
    rw [convLoop_voice ans cs t rs (by omega), if_neg hne]
  refine ⟨hsil0 rest, h12 rest, ?_, fun hne cs hcs => hvoice hne cs hcs rest, ?_⟩
  · rw [convLoop_silence ans 0 (none :: rest) (by omega), if_pos (by omega), h12 rest]
  · intro hne
    rw [hsil0 (some t :: none :: rest), hvoice hne 1 (by omega) (none :: rest),
      hsil0 rest]

/-- C1 witness: fallback at counter 1, a transcript at counter 1
resetting the loop to counter 0, and a silence-transcript-silence trace
that keeps running. -/
theorem c1_witness :
    convLoop (fun _ => "ok") 1 [none] = ([Spoken.fallback], SessionEnd.silenceLimit) ∧
    convLoop (fun _ => "ok") 1 [some "hi"] =
      (Spoken.answerOut ((fun _ : String => "ok") "hi") ::
          (convLoop (fun _ => "ok") 0 []).1,
        (convLoop (fun _ => "ok") 0 []).2) ∧
    convLoop (fun _ => "ok") 0 [none, some "hi", none] =
      (Spoken.reprompt :: Spoken.answerOut ((fun _ : String => "ok") "hi") ::
          Spoken.reprompt :: (convLoop (fun _ => "ok") 1 []).1,
        (convLoop (fun _ => "ok") 1 []).2) :=
  ⟨(c1_silence_counting (fun _ => "ok") "hi" []).2.1,
   (c1_silence_counting (fun _ => "ok") "hi" []).2.2.2.1 (by decide) 1 (by decide),
   (c1_silence_counting (fun _ => "ok") "hi" []).2.2.2.2 (by decide)⟩

/-- C2 counterexample: the question contains the farewell phrase
"goodbye", yet the router yields the time system command, not Exit, with
or without available contexts, because _handle_system_commands tests the
time and date keyword sets before the farewell set. -/
theorem c2_counterexample :
    farewellWords.any
        (fun w => pyIn w (pyLower (pyStrip "what time is it goodbye"))) = true ∧
    route "what time is it goodbye" none = RouteOut.sysTime ∧
    route "what time is it goodbye"
        (some (Except.ok
          [⟨"one two three four five six seven eight nine ten eleven twelve thirteen fourteen fifteen sixteen seventeen eighteen nineteen twenty twentyone", "handbook"⟩]))
      = RouteOut.sysTime ∧
    RouteOut.sysTime ≠ RouteOut.exitRoute := by decide

/-- C2 (amended): a question containing a farewell phrase that does not
also match the time or date keyword sets (which are tested first) yields
the Exit decision, taking precedence over any retrieval, and the session
ends on it. -/
theorem c2_farewell_precedence_amended (q : String) (r : RetrOutcome)
    (ts ds : String) (genWithCtx : String → String → String)
    (genGeneral : String → String) (rest : List (Option String))
    (hfw : farewellWords.any (fun w => pyIn w (pyLower (pyStrip q))) = true)
    (htime : timeWords.any (fun w => pyIn w (pyLower (pyStrip q))) = false)
    (hdate : dateWords.any (fun w => pyIn w (pyLower (pyStrip q))) = false) :
    route q r = RouteOut.exitRoute ∧
    pipeAnswer q r ts ds genWithCtx genGeneral = exitToken ∧
    convLoop (fun t => pipeAnswer t r ts ds genWithCtx genGeneral) 0
        (some q :: rest) = ([Spoken.signOff], SessionEnd.exitCommand) := by
  have hq : ¬ (pyStrip q = "") := by
    intro h0
    rw [h0] at hfw
    exact absurd hfw (by decide)
  have hcmd : handleSystemCommands (pyStrip q) = some SysCmd.exitCmd := by
    simp [handleSystemCommands, htime, hdate, hfw]
  have hpipe : pipeAnswer q r ts ds genWithCtx genGeneral = exitToken := by
    simp [pipeAnswer, handleSystemCommandsStr, if_neg hq, hcmd]
  refine ⟨?_, hpipe, ?_⟩
  · simp [route, if_neg hq, hcmd]
  · rw [convLoop_voice _ 0 q rest (by omega)]
    simp [hpipe]

/-- C2 witness: the question "goodbye" exits even with no retriever. -/
theorem c2_amended_witness :
    route "goodbye" none = RouteOut.exitRoute ∧
    pipeAnswer "goodbye" none "x" "y" (fun _ c => c) (fun q => q) = exitToken ∧
    convLoop (fun t => pipeAnswer t none "x" "y" (fun _ c => c) (fun q => q)) 0
        [some "goodbye"] = ([Spoken.signOff], SessionEnd.exitCommand) :=
  c2_farewell_precedence_amended "goodbye" none "x" "y" (fun _ c => c) (fun q => q)
    [] (by decide) (by decide) (by decide)

/-- C3: for a non-empty question matching no system command, with the
retriever available and returning contexts, the decision is Grounded
exactly when some returned passage has more than 20 whitespace-separated
words, and General otherwise (including the empty context list). -/
theorem c3_relevance_heuristic (q : String) (contexts : List Ctx)
    (h1 : ¬ (pyStrip q = "")) (h2 : handleSystemCommands (pyStrip q) = none) :
    (route q (some (Except.ok contexts)) = RouteOut.grounded contexts ↔
      contexts.any (fun c => 20 < pyWordCount c.text) = true) ∧
    (contexts.any (fun c => 20 < pyWordCount c.text) = false →
      route q (some (Except.ok contexts)) = RouteOut.general) := by
  have hr : route q (some (Except.ok contexts)) =
      if contexts.any (fun c => 20 < pyWordCount c.text) then
        RouteOut.grounded contexts
      else RouteOut.general := by
    simp [route, if_neg h1, h2, grounded_cond_eq]
  rw [hr]
  cases hany : contexts.any (fun c => 20 < pyWordCount c.text) <;> simp [hany]

/-- C3 witness at a 25-word passage and a 2-word passage. -/
theorem c3_witness :
    (route "library timings"
        (some (Except.ok
          [⟨"one two three four five six seven eight nine ten eleven twelve thirteen fourteen fifteen sixteen seventeen eighteen nineteen twenty twentyone twentytwo twentythree twentyfour twentyfive", "handbook"⟩]))
        = RouteOut.grounded
          [⟨"one two three four five six seven eight nine ten eleven twelve thirteen fourteen fifteen sixteen seventeen eighteen nineteen twenty twentyone twentytwo twentythree twentyfour twentyfive", "handbook"⟩]
      ↔ [(⟨"one two three four five six seven eight nine ten eleven twelve thirteen fourteen fifteen sixteen seventeen eighteen nineteen twenty twentyone twentytwo twentythree twentyfour twentyfive", "handbook"⟩ : Ctx)].any
          (fun c => 20 < pyWordCount c.text) = true) ∧
    ([(⟨"short text", "handbook"⟩ : Ctx)].any
        (fun c => 20 < pyWordCount c.text) = false →
      route "library timings" (some (Except.ok [⟨"short text", "handbook"⟩]))
        = RouteOut.general) :=
  ⟨(c3_relevance_heuristic "library timings" _ (by decide) (by decide)).1,
   (c3_relevance_heuristic "library timings" _ (by decide) (by decide)).2⟩

/-- C4: an unavailable retriever (constructor raised) and a raising
retrieve() call both yield the General decision; route is a total
function, so neither cause propagates a fault out of answer. -/
theorem c4_retrieval_failure_degrades (q : String) (e : Unit)
    (h1 : ¬ (pyStrip q = "")) (h2 : handleSystemCommands (pyStrip q) = none) :
    route q none = RouteOut.general ∧
    route q (some (Except.error e)) = RouteOut.general := by
  constructor <;> simp [route, if_neg h1, h2]

/-- C4 witness at a concrete knowledge question. -/
theorem c4_witness :
    route "library timings open hours" none = RouteOut.general ∧
    route "library timings open hours" (some (Except.error ())) = RouteOut.general :=
  c4_retrieval_failure_degrades "library timings open hours" () (by decide) (by decide)

/-- C5: a wake match moves the detector to Paused before the callback
(fireWake requires the loop thread at its top with the pause flag down
and raises the flag while entering the callback), the callback runs
synchronously in the loop thread, and only its return restores
Listening; along every run from the initial state the number of
invocations never exceeds the number of returns by more than one, so
the callback is never re-entered, for any interleaving of the
controller calls. -/
theorem c5_no_callback_reentrancy (pre suf : List DetAct) (s : DetSt) :
    (detRun detInit (pre ++ suf) = some s →
      fireCount pre ≤ retCount pre + 1) ∧
    (∀ u v : DetSt, detStep u DetAct.fireWake = some v →
      u.thread = some TPC.atLoop ∧ u.paused = false ∧
      v.paused = true ∧ v.thread = some TPC.inCallback) ∧
    (∀ u v : DetSt, detStep u DetAct.callbackRet = some v →
      u.thread = some TPC.inCallback ∧ v.paused = false ∧
      v.thread = some TPC.atLoop) := by
  refine ⟨?_, by decide, by decide⟩
  intro h
  obtain ⟨m, hpre, _⟩ := detRun_append pre suf detInit s h
  have hc := detRun_count pre detInit m detInv_init hpre
  have hd := cbDepth_le_one m
  have h0 : cbDepth detInit = 0 := rfl
  omega

/-- C5 witness on a concrete start-fire-return run. -/
theorem c5_witness :
    detRun detInit
        ([DetAct.startCall, DetAct.fireWake] ++ [DetAct.callbackRet]) =
      some ⟨true, false, false, some TPC.atLoop⟩ ∧
    fireCount [DetAct.startCall, DetAct.fireWake] ≤
      retCount [DetAct.startCall, DetAct.fireWake] + 1 :=
  ⟨by decide,
   (c5_no_callback_reentrancy [DetAct.startCall, DetAct.fireWake]
      [DetAct.callbackRet] ⟨true, false, false, some TPC.atLoop⟩).1 (by decide)⟩

/-- C6: stop() signals the loop to exit (running goes down first) and
waits for the loop thread; once stop() has returned the detector state
is Idle, and no wake callback fires on any later run that does not call
start() again. The bounded length of the join window (the code passes
timeout=5 to join) is a real-time property outside the model, which
covers the runs in which the join completes. -/
theorem c6_stop_idles_detector (acts acts2 : List DetAct) (s s2 s3 : DetSt) :
    (s.stopping = false → detStep s DetAct.stopSignal =
      some { s with running := false, stopping := true }) ∧
    (detRun detInit acts = some s → detStep s DetAct.stopReturn = some s2 →
      detectorState s2 = SpecDetState.idle ∧ s2.thread = none ∧
      (detRun s2 acts2 = some s3 → DetAct.startCall ∉ acts2 →
        fireCount acts2 = 0)) := by
  constructor
  · intro h
    simp [detStep, h]
  · intro hrun hstop
    have hinv : detInv s := detRun_inv acts detInit s detInv_init hrun
    obtain ⟨hr2, ht2, _⟩ := detStep_stopRet s s2 hinv hstop
    refine ⟨by simp [detectorState, hr2], ht2, ?_⟩
    intro hrun2 hmem
    exact detRun_dead acts2 s2 s3 ht2 hr2 hrun2 hmem

/-- C6 witness on a concrete start-stop run followed by a pause call. -/
theorem c6_witness :
    (detStep detInit DetAct.stopSignal =
      some { detInit with running := false, stopping := true }) ∧
    detectorState ⟨false, false, false, none⟩ = SpecDetState.idle ∧
    fireCount [DetAct.pauseCall] = 0 := by
  have h := c6_stop_idles_detector
    [DetAct.startCall, DetAct.stopSignal, DetAct.threadExit] [DetAct.pauseCall]
    ⟨false, true, false, none⟩ ⟨false, false, false, none⟩
    ⟨false, false, true, none⟩
  have h2 := (c6_stop_idles_detector ([] : List DetAct) []
    detInit detInit detInit).1 (by decide)
  refine ⟨h2, ?_, ?_⟩
  · exact (h.2 (by decide) (by decide)).1
  · exact (h.2 (by decide) (by decide)).2.2 (by decide) (by decide)

/-- C7: the route decision is a pure function of the question text and
the available contexts — two retriever outcomes with the same
available-contexts view give the same decision — and "what time is it"
yields the time system command for every retriever state. -/
theorem c7_router_deterministic (q : String) (r r1 r2 : RetrOutcome)
    (h : availableContexts r1 = availableContexts r2) :
    route "what time is it" r = RouteOut.sysTime ∧ route q r1 = route q r2 := by
  constructor
  · rw [route_eq_routeA]
    rfl
  · rw [route_eq_routeA, route_eq_routeA, h]

/-- C7 witness: time command with contexts available; unavailable
retriever and raising retriever agree on an ordinary question. -/
theorem c7_witness :
    route "what time is it" (some (Except.ok [⟨"a b c", "s"⟩])) = RouteOut.sysTime ∧
    route "hello" none = route "hello" (some (Except.error ())) :=
  c7_router_deterministic "hello" (some (Except.ok [⟨"a b c", "s"⟩]))
    none (some (Except.error ())) (by decide)

/-- C8: an input whose stripped form is empty short-circuits to the
fixed clarification answer, for every retriever outcome and every
generator, before any command check, retrieval or generation. -/
theorem c8_empty_input_short_circuit (q : String) (r : RetrOutcome)
    (ts ds : String) (genWithCtx : String → String → String)
    (genGeneral : String → String) (h : pyStrip q = "") :
    route q r = RouteOut.clarification ∧
    pipeAnswer q r ts ds genWithCtx genGeneral =
      "I didn\x27t catch that. Could you repeat?" := by
  constructor <;> simp [route, pipeAnswer, h]

/-- C8 witness at a whitespace-only input. -/
theorem c8_witness :
    route "  " none = RouteOut.clarification ∧
    pipeAnswer "  " none "x" "y" (fun _ c => c) (fun q => q) =
      "I didn\x27t catch that. Could you repeat?" :=
  c8_empty_input_short_circuit "  " none "x" "y" (fun _ c => c) (fun q => q)
    (by decide)

/-- C9: redundant detector transitions leave the state unchanged —
pause() twice in a row leaves Paused, resume() on an already-Listening
detector is a no-op, and start() on a running detector is a no-op that
does not spawn a second loop thread. -/
theorem c9_idempotent_controls (s : DetSt) :
    (s.stopping = false →
      detStep s DetAct.pauseCall = some { s with paused := true } ∧
      detStep { s with paused := true } DetAct.pauseCall =
        some { s with paused := true } ∧
      (s.running = true →
        detectorState { s with paused := true } = SpecDetState.pausedSt)) ∧
    (s.stopping = false → s.paused = false →
      detStep s DetAct.resumeCall = some s) ∧
    (s.stopping = false → s.running = true →
      detStep s DetAct.startCall = some s) := by
  revert s
  decide

/-- C9 witness at a running, unpaused detector. -/
theorem c9_witness :
    detStep ⟨true, false, false, some TPC.atLoop⟩ DetAct.pauseCall =
      some ⟨true, false, true, some TPC.atLoop⟩ ∧
    detStep ⟨true, false, false, some TPC.atLoop⟩ DetAct.resumeCall =
      some ⟨true, false, false, some TPC.atLoop⟩ ∧
    detStep ⟨true, false, false, some TPC.atLoop⟩ DetAct.startCall =
      some ⟨true, false, false, some TPC.atLoop⟩ :=
  ⟨((c9_idempotent_controls ⟨true, false, false, some TPC.atLoop⟩).1 (by decide)).1,
   (c9_idempotent_controls ⟨true, false, false, some TPC.atLoop⟩).2.1
     (by decide) (by decide),
   (c9_idempotent_controls ⟨true, false, false, some TPC.atLoop⟩).2.2
     (by decide) (by decide)⟩

/-- C10: the Exit decision is carried in band as the literal answer
string "__EXIT__": the farewell branch returns that string, the session
loop ends a turn exactly when the answer equals it — for an arbitrary
answer oracle, so a generated answer with that text exits too — and the
console loop breaks on the same string equality. -/
theorem c10_exit_in_band (ans : String → String) (t raw : String)
    (rest : List (Option String)) (ts ds : String) :
    (handleSystemCommandsStr "goodbye" ts ds = some "__EXIT__") ∧
    (exitToken = "__EXIT__") ∧
    (ans t = "__EXIT__" →
      convLoop ans 0 (some t :: rest) = ([Spoken.signOff], SessionEnd.exitCommand)) ∧
    (ans t ≠ "__EXIT__" →
      (convLoop ans 0 (some t :: rest)).2 = (convLoop ans 0 rest).2) ∧
    (¬ (pyStrip raw = "") →
      ¬ (pyLower (pyStrip raw) = "exit") → ¬ (pyLower (pyStrip raw) = "quit") →
      ¬ (pyLower (pyStrip raw) = "bye") →
      (consoleStep ans raw = ConsoleStep.quitExit ↔
        ans (pyStrip raw) = "__EXIT__")) := by
  refine ⟨rfl, rfl, ?_, ?_, ?_⟩
  · intro h
    rw [convLoop_voice ans 0 t rest (by omega),
      if_pos (show ans t = exitToken from h)]
  · intro h
    rw [convLoop_voice ans 0 t rest (by omega),
      if_neg (show ¬ ans t = exitToken from h)]
  · intro h1 h2 h3 h4
    simp only [consoleStep, h1, h2, h3, h4]
    by_cases he : ans (pyStrip raw) = "__EXIT__" <;>
      simp [he, exitToken, h1, h2, h3, h4]

/-- C10 witness with an oracle that answers the exit string. -/
theorem c10_witness :
    (handleSystemCommandsStr "goodbye" "x" "y" = some "__EXIT__") ∧
    convLoop (fun _ => "__EXIT__") 0 [some "hm"] =
      ([Spoken.signOff], SessionEnd.exitCommand) ∧
    (consoleStep (fun _ => "__EXIT__") "hello" = ConsoleStep.quitExit ↔
      (fun _ : String => "__EXIT__") (pyStrip "hello") = "__EXIT__") :=
  ⟨(c10_exit_in_band (fun _ => "__EXIT__") "hm" "hello" [] "x" "y").1,
   (c10_exit_in_band (fun _ => "__EXIT__") "hm" "hello" [] "x" "y").2.2.1 (by decide),
   (c10_exit_in_band (fun _ => "__EXIT__") "hm" "hello" [] "x" "y").2.2.2.2
     (by decide) (by decide) (by decide) (by decide)⟩

end CllgChatbot
